import Mathlib

/-!
# Storage/domain translation of `server/persistence/relational/models.go`

A shallow embedding of the twelve `export` / `import*` functions of the
relational persistence package, together with the record types they translate.

* A Go slice distinguishes the `nil` slice from an allocated slice of length
  zero; `GoSlice` keeps that distinction.
* A Go `*string` is `Option String` (`none` is the nil pointer).
* The `for _, x := range xs { ys = append(ys, f(x)) }` loops are folds over
  the elements of `xs`, in order, with Go's `append`.
-/

/-! ## Go slices -/

/-- A Go slice value: either the `nil` slice or an allocated slice holding the
given elements (possibly none). -/
inductive GoSlice (α : Type) where
  | nil : GoSlice α
  | elems : List α → GoSlice α
deriving DecidableEq, Repr

namespace GoSlice

variable {α β : Type}

/-- The elements of a slice in index order; the `nil` slice has none. -/
def toList : GoSlice α → List α
  | nil => []
  | elems l => l

/-- Go's `len`. -/
def len (s : GoSlice α) : Nat := s.toList.length

/-- The test `s == nil`. -/
def isNil : GoSlice α → Bool
  | nil => true
  | elems _ => false

/-- Go's `append(s, x)`: appending to the `nil` slice allocates. -/
def append : GoSlice α → α → GoSlice α
  | nil, x => elems [x]
  | elems l, x => elems (l ++ [x])

/-- The loop `for _, x := range s { acc = append(acc, f(x)) }` started with
accumulator `init`. -/
def rangeAppend (f : α → β) (init : GoSlice β) (s : GoSlice α) : GoSlice β :=
  s.toList.foldl (fun acc x => acc.append (f x)) init

end GoSlice

/-- Go's `time.Time`, a plain value (wall clock word, extended seconds word and
an optional location); the translation layer only copies it. -/
structure Time where
  wall : Nat
  ext : Int
  loc : Option String
deriving DecidableEq, Repr

/-! ## Domain types (package `persistence`) -/

namespace Persistence

/-- Modelled from the spec: the declaration of `persistence.Secret` is not part
of the analysed file; its fields are the ones the composite literals of
`models.go` assign (`SecretID`, `EncryptedSecret`). -/
structure Secret where
  SecretID : String
  EncryptedSecret : String
deriving DecidableEq, Repr

/-- Modelled from the spec: the declaration of `persistence.Event` is not part
of the analysed file; `SecretID` is the nullable reference ("null signals an
anonymous event"), `Secret` the nested value object. -/
structure Event where
  EventID : String
  Sequence : String
  AccountID : String
  SecretID : Option String
  Payload : String
  Secret : Secret
deriving DecidableEq, Repr

/-- Modelled from the spec: the declaration of `persistence.Tombstone` is not
part of the analysed file; it retains `EventID`, `AccountID`, `SecretID` and
`Sequence` of the event it replaces. -/
structure Tombstone where
  EventID : String
  AccountID : String
  SecretID : Option String
  Sequence : String
deriving DecidableEq, Repr

/-- Modelled from the spec: the declaration of `persistence.Account` is not
part of the analysed file; an account owns an ordered collection of events. -/
structure Account where
  AccountID : String
  Name : String
  PublicKey : String
  EncryptedPrivateKey : String
  UserSalt : String
  Retired : Bool
  AccountStyles : String
  Created : Time
  Events : GoSlice Event
deriving DecidableEq, Repr

/-- Modelled from the spec: the declaration of
`persistence.AccountUserAdminLevel` is not part of the analysed file;
"`AdminLevel` (ordinal capability level)" is a named integer type over Go's
`int`, which is what the conversions `AccountUserAdminLevel(a.AdminLevel)` and
`int(a.AdminLevel)` of `models.go` go through. -/
structure AccountUserAdminLevel where
  val : Int
deriving DecidableEq, Repr

/-- Modelled from the spec: the declaration of
`persistence.AccountUserRelationship` is not part of the analysed file; it
carries the three ciphertexts of the key-encryption-key. -/
structure AccountUserRelationship where
  RelationshipID : String
  AccountUserID : String
  AccountID : String
  PasswordEncryptedKeyEncryptionKey : String
  EmailEncryptedKeyEncryptionKey : String
  OneTimeEncryptedKeyEncryptionKey : String
deriving DecidableEq, Repr

/-- Modelled from the spec: the declaration of `persistence.AccountUser` is not
part of the analysed file; an account user owns a collection of
relationships. -/
structure AccountUser where
  AccountUserID : String
  HashedEmail : String
  HashedPassword : String
  Salt : String
  AdminLevel : AccountUserAdminLevel
  Relationships : GoSlice AccountUserRelationship
deriving DecidableEq, Repr

end Persistence

/-! ## Storage types and the translation functions (package `relational`) -/

namespace Relational

/-- The storage record `Secret`. -/
structure Secret where
  SecretID : String
  EncryptedSecret : String
deriving DecidableEq, Repr

/-- The storage record `Event`; the secret id is nullable for anonymous
events. -/
structure Event where
  EventID : String
  Sequence : String
  AccountID : String
  SecretID : Option String
  Payload : String
  Secret : Secret
deriving DecidableEq, Repr

/-- The storage record `Tombstone`, which replaces an event on its deletion. -/
structure Tombstone where
  EventID : String
  AccountID : String
  SecretID : Option String
  Sequence : String
deriving DecidableEq, Repr

/-- The storage record `Account`. -/
structure Account where
  AccountID : String
  Name : String
  PublicKey : String
  EncryptedPrivateKey : String
  UserSalt : String
  Retired : Bool
  AccountStyles : String
  Created : Time
  Events : GoSlice Event
deriving DecidableEq, Repr

/-- The storage record `AccountUserRelationship`. -/
structure AccountUserRelationship where
  RelationshipID : String
  AccountUserID : String
  AccountID : String
  PasswordEncryptedKeyEncryptionKey : String
  EmailEncryptedKeyEncryptionKey : String
  OneTimeEncryptedKeyEncryptionKey : String
deriving DecidableEq, Repr

/-- The storage record `AccountUser`; `AdminLevel` is a Go `int`. -/
structure AccountUser where
  AccountUserID : String
  HashedEmail : String
  HashedPassword : String
  Salt : String
  AdminLevel : Int
  Relationships : GoSlice AccountUserRelationship
deriving DecidableEq, Repr

/-- The method `func (s *Secret) export() persistence.Secret`. -/
def Secret.export (s : Secret) : Persistence.Secret :=
  { SecretID := s.SecretID
    EncryptedSecret := s.EncryptedSecret }

/-- The function `importSecret`. -/
def importSecret (s : Persistence.Secret) : Secret :=
  { SecretID := s.SecretID
    EncryptedSecret := s.EncryptedSecret }

/-- The method `func (e *Event) export() persistence.Event`. -/
def Event.export (e : Event) : Persistence.Event :=
  { EventID := e.EventID
    AccountID := e.AccountID
    SecretID := e.SecretID
    Payload := e.Payload
    Secret := e.Secret.export
    Sequence := e.Sequence }

/-- The function `importEvent`. -/
def importEvent (e : Persistence.Event) : Event :=
  { EventID := e.EventID
    AccountID := e.AccountID
    SecretID := e.SecretID
    Payload := e.Payload
    Secret := importSecret e.Secret
    Sequence := e.Sequence }

/-- The method `func (t *Tombstone) export() persistence.Tombstone`. -/
def Tombstone.export (t : Tombstone) : Persistence.Tombstone :=
  { EventID := t.EventID
    AccountID := t.AccountID
    SecretID := t.SecretID
    Sequence := t.Sequence }

/-- The function `importTombstone`; the returned pointer is never nil, so the
result is the record it points to. -/
def importTombstone (t : Persistence.Tombstone) : Tombstone :=
  { EventID := t.EventID
    AccountID := t.AccountID
    Sequence := t.Sequence
    SecretID := t.SecretID }

/-- The method
`func (a *AccountUserRelationship) export() persistence.AccountUserRelationship`. -/
def AccountUserRelationship.export (a : AccountUserRelationship) :
    Persistence.AccountUserRelationship :=
  { RelationshipID := a.RelationshipID
    AccountUserID := a.AccountUserID
    AccountID := a.AccountID
    PasswordEncryptedKeyEncryptionKey := a.PasswordEncryptedKeyEncryptionKey
    EmailEncryptedKeyEncryptionKey := a.EmailEncryptedKeyEncryptionKey
    OneTimeEncryptedKeyEncryptionKey := a.OneTimeEncryptedKeyEncryptionKey }

/-- The function `importAccountUserRelationship`. -/
def importAccountUserRelationship (a : Persistence.AccountUserRelationship) :
    AccountUserRelationship :=
  { RelationshipID := a.RelationshipID
    AccountUserID := a.AccountUserID
    AccountID := a.AccountID
    PasswordEncryptedKeyEncryptionKey := a.PasswordEncryptedKeyEncryptionKey
    EmailEncryptedKeyEncryptionKey := a.EmailEncryptedKeyEncryptionKey
    OneTimeEncryptedKeyEncryptionKey := a.OneTimeEncryptedKeyEncryptionKey }

/-- The method `func (a *AccountUser) export() persistence.AccountUser`:
`var relationships []persistence.AccountUserRelationship` starts as the `nil`
slice and the loop appends the export of every relationship. -/
def AccountUser.export (a : AccountUser) : Persistence.AccountUser :=
  let relationships : GoSlice Persistence.AccountUserRelationship :=
    GoSlice.rangeAppend AccountUserRelationship.export GoSlice.nil a.Relationships
  { AccountUserID := a.AccountUserID
    HashedEmail := a.HashedEmail
    HashedPassword := a.HashedPassword
    Salt := a.Salt
    AdminLevel := Persistence.AccountUserAdminLevel.mk a.AdminLevel
    Relationships := relationships }

/-- The function `importAccountUser`: the local `relationships` is declared
with `var`, so it starts as the `nil` slice, and the loop appends the imported
form of every relationship. -/
def importAccountUser (a : Persistence.AccountUser) : AccountUser :=
  let relationships : GoSlice AccountUserRelationship :=
    GoSlice.rangeAppend importAccountUserRelationship GoSlice.nil a.Relationships
  { AccountUserID := a.AccountUserID
    HashedEmail := a.HashedEmail
    HashedPassword := a.HashedPassword
    Salt := a.Salt
    AdminLevel := a.AdminLevel.val
    Relationships := relationships }

/-- The method `func (a *Account) export() persistence.Account`:
`var events []persistence.Event` starts as the `nil` slice and the loop appends
the export of every event. -/
def Account.export (a : Account) : Persistence.Account :=
  let events : GoSlice Persistence.Event :=
    GoSlice.rangeAppend Event.export GoSlice.nil a.Events
  { AccountID := a.AccountID
    Name := a.Name
    PublicKey := a.PublicKey
    EncryptedPrivateKey := a.EncryptedPrivateKey
    UserSalt := a.UserSalt
    Retired := a.Retired
    Created := a.Created
    Events := events
    AccountStyles := a.AccountStyles }

/-- The function `importAccount`: `events := []Event{}` starts as an allocated
empty slice and the loop appends the import of every event. -/
def importAccount (a : Persistence.Account) : Account :=
  let events : GoSlice Event :=
    GoSlice.rangeAppend importEvent (GoSlice.elems []) a.Events
  { AccountID := a.AccountID
    Name := a.Name
    PublicKey := a.PublicKey
    EncryptedPrivateKey := a.EncryptedPrivateKey
    UserSalt := a.UserSalt
    Retired := a.Retired
    Created := a.Created
    Events := events
    AccountStyles := a.AccountStyles }

end Relational

/-! ## Sample records -/

namespace Sample

/-- A storage secret. -/
def secret : Relational.Secret :=
  { SecretID := "h(U1,s1)", EncryptedSecret := "enc-secret" }

/-- A storage event of user `U1` on account `A1`. -/
def event1 : Relational.Event :=
  { EventID := "01E", Sequence := "0001", AccountID := "A1",
    SecretID := some "h(U1,s1)", Payload := "payload-1", Secret := secret }

/-- An anonymous storage event on account `A1`. -/
def event2 : Relational.Event :=
  { EventID := "01F", Sequence := "0002", AccountID := "A1",
    SecretID := none, Payload := "payload-2",
    Secret := { SecretID := "", EncryptedSecret := "" } }

/-- A domain account with two events. -/
def domainAccount : Persistence.Account :=
  { AccountID := "A1", Name := "one", PublicKey := "pub",
    EncryptedPrivateKey := "enc-priv", UserSalt := "s1", Retired := false,
    AccountStyles := "", Created := { wall := 0, ext := 63700000000, loc := none },
    Events := GoSlice.elems [event1.export, event2.export] }

/-- A storage account whose events were not loaded (`nil` slice). -/
def accountNoEvents : Relational.Account :=
  { AccountID := "A1", Name := "one", PublicKey := "pub",
    EncryptedPrivateKey := "enc-priv", UserSalt := "s1", Retired := false,
    AccountStyles := "", Created := { wall := 0, ext := 63700000000, loc := none },
    Events := GoSlice.nil }

/-- A storage account user without relationships (`nil` slice). -/
def userNoRelationships : Relational.AccountUser :=
  { AccountUserID := "U1", HashedEmail := "he", HashedPassword := "hp",
    Salt := "salt", AdminLevel := 1, Relationships := GoSlice.nil }

/-- A domain account user whose relationships are absent (`nil` slice). -/
def domainUserNoRelationships : Persistence.AccountUser :=
  { AccountUserID := "U1", HashedEmail := "he", HashedPassword := "hp",
    Salt := "salt", AdminLevel := { val := 1 }, Relationships := GoSlice.nil }

end Sample

/-! ## Calls, deletion and further sample records -/

/-- The outcome of a Go call: the value the function returns, or a run-time
panic. None of the translation functions has an `error` result. -/
inductive GoResult (α : Type) where
  | returned : α → GoResult α
  | panicked : String → GoResult α
deriving DecidableEq, Repr

/-- Whether a call came back with a value. -/
def GoResult.isReturned {α : Type} : GoResult α → Bool
  | GoResult.returned _ => true
  | GoResult.panicked _ => false

/-- A call of a translation function through its pointer argument (the receiver
`e *Event`, the parameter `a *persistence.Account`, ...). Every body reads the
fields through that pointer and is otherwise straight-line code and an append
loop, with a single `return`: behind a nil pointer the first field access
panics, behind a record the body `body` returns its value. -/
def callThroughPointer {α β : Type} (body : α → β) : Option α → GoResult β
  | none => GoResult.panicked "invalid memory address or nil pointer dereference"
  | some r => GoResult.returned (body r)

namespace Relational

/-- Whether an event references a secret that its nested `Secret` does not
carry: the secret id is set and the nested secret has another id (the empty
one when the secret is missing). -/
def Event.secretMissing (e : Event) : Bool :=
  match e.SecretID with
  | none => false
  | some id => e.Secret.SecretID != id

/-- Modelled from the spec: the deletion code that replaces an event by its
tombstone is not part of the analysed file (only the two record types are). A
tombstone "replaces a deleted `Event` with identical `EventID`, retains
`AccountID`, `SecretID`, `Sequence`". -/
def replaceWithTombstone (e : Event) : Tombstone :=
  { EventID := e.EventID
    AccountID := e.AccountID
    SecretID := e.SecretID
    Sequence := e.Sequence }

end Relational

namespace Sample

/-- A storage event whose secret id is set while its nested secret is missing
(the zero value). -/
def eventMissingSecret : Relational.Event :=
  { EventID := "01G", Sequence := "0003", AccountID := "A1",
    SecretID := some "h(U2,s1)", Payload := "payload-3",
    Secret := { SecretID := "", EncryptedSecret := "" } }

/-- A storage event whose nested secret carries another secret id. -/
def eventOtherSecret : Relational.Event :=
  { EventID := "01H", Sequence := "0004", AccountID := "A1",
    SecretID := some "h(U2,s1)", Payload := "payload-4", Secret := secret }

/-- A storage relationship of user `U1` to account `A1`. -/
def relationship : Relational.AccountUserRelationship :=
  { RelationshipID := "R1", AccountUserID := "U1", AccountID := "A1",
    PasswordEncryptedKeyEncryptionKey := "kek-by-password",
    EmailEncryptedKeyEncryptionKey := "kek-by-email",
    OneTimeEncryptedKeyEncryptionKey := "kek-by-token" }

/-- A storage account user whose relationships are an allocated empty slice. -/
def userEmptyRelationships : Relational.AccountUser :=
  { AccountUserID := "U1", HashedEmail := "he", HashedPassword := "hp",
    Salt := "salt", AdminLevel := 1, Relationships := GoSlice.elems [] }

/-- A domain account whose events are an allocated empty slice. -/
def domainAccountEmptyEvents : Persistence.Account :=
  { AccountID := "A1", Name := "one", PublicKey := "pub",
    EncryptedPrivateKey := "enc-priv", UserSalt := "s1", Retired := false,
    AccountStyles := "", Created := { wall := 0, ext := 63700000000, loc := none },
    Events := GoSlice.elems [] }

end Sample

/-! ## Lemmas on the append loop -/

namespace GoSlice

variable {α β : Type}

theorem toList_append (s : GoSlice α) (x : α) :
    (s.append x).toList = s.toList ++ [x] := by
  cases s <;> rfl

theorem isNil_append (s : GoSlice α) (x : α) : (s.append x).isNil = false := by
  cases s <;> rfl

theorem toList_rangeAppend (f : α → β) (init : GoSlice β) (s : GoSlice α) :
    (rangeAppend f init s).toList = init.toList ++ s.toList.map f := by
  unfold rangeAppend
  generalize s.toList = l
  induction l generalizing init with
  | nil => simp
  | cons x xs ih => simp [List.foldl_cons, ih, toList_append]

theorem append_elems (l : List α) (x : α) : (elems l).append x = elems (l ++ [x]) := rfl

theorem foldl_append_elems (f : α → β) (xs : List α) (l : List β) :
    xs.foldl (fun acc x => acc.append (f x)) (elems l) = elems (l ++ xs.map f) := by
  induction xs generalizing l with
  | nil => simp
  | cons x xs ih =>
    rw [List.foldl_cons, append_elems, ih]
    simp

theorem rangeAppend_elems (f : α → β) (l : List β) (s : GoSlice α) :
    rangeAppend f (elems l) s = elems (l ++ s.toList.map f) :=
  foldl_append_elems f s.toList l

theorem rangeAppend_nil (f : α → β) (s : GoSlice α) :
    rangeAppend f nil s
      = if s.toList.isEmpty then nil else elems (s.toList.map f) := by
  unfold rangeAppend
  cases s.toList with
  | nil => rfl
  | cons x xs =>
    have h : (nil : GoSlice β).append (f x) = elems ([] ++ [f x]) := rfl
    rw [List.foldl_cons, h, foldl_append_elems]
    simp

theorem elems_toList_of_isNil_false (s : GoSlice α) (h : s.isNil = false) :
    elems s.toList = s := by
  cases s with
  | nil => simp [isNil] at h
  | elems l => rfl

end GoSlice

/-! ## Element round trips (shared lemmas) -/

namespace Relational

theorem importSecret_export_eq (s : Secret) : importSecret s.export = s := rfl

theorem export_importSecret_eq (s : Persistence.Secret) : (importSecret s).export = s := rfl

theorem importEvent_export_eq (e : Event) : importEvent e.export = e := rfl

theorem export_importEvent_eq (e : Persistence.Event) : (importEvent e).export = e := rfl

theorem importRelationship_export_eq (a : AccountUserRelationship) :
    importAccountUserRelationship a.export = a := rfl

theorem export_importRelationship_eq (a : Persistence.AccountUserRelationship) :
    (importAccountUserRelationship a).export = a := rfl

theorem map_importEvent_export (l : List Event) :
    (l.map Event.export).map importEvent = l := by
  induction l with
  | nil => rfl
  | cons x xs ih => rw [List.map_cons, List.map_cons, ih, importEvent_export_eq]

theorem map_export_importEvent (l : List Persistence.Event) :
    (l.map importEvent).map Event.export = l := by
  induction l with
  | nil => rfl
  | cons x xs ih => rw [List.map_cons, List.map_cons, ih, export_importEvent_eq]

theorem map_importRelationship_export (l : List AccountUserRelationship) :
    (l.map AccountUserRelationship.export).map importAccountUserRelationship = l := by
  induction l with
  | nil => rfl
  | cons x xs ih => rw [List.map_cons, List.map_cons, ih, importRelationship_export_eq]

/-- The events of an exported account: the exported elements, in order. -/
theorem export_events_toList (a : Account) :
    a.export.Events.toList = a.Events.toList.map Event.export := by
  show (GoSlice.rangeAppend Event.export GoSlice.nil a.Events).toList = _
  rw [GoSlice.toList_rangeAppend]
  rfl

/-- The events of an imported account: always an allocated slice. -/
theorem importAccount_events (d : Persistence.Account) :
    (importAccount d).Events = GoSlice.elems (d.Events.toList.map importEvent) := by
  simp [importAccount, GoSlice.rangeAppend_elems]

/-- The events of an exported account, with the slice header. -/
theorem export_events (a : Account) :
    a.export.Events
      = if a.Events.toList.isEmpty then GoSlice.nil
        else GoSlice.elems (a.Events.toList.map Event.export) := by
  simp only [Account.export, GoSlice.rangeAppend_nil]

/-- The relationships of an exported account user, with the slice header. -/
theorem export_relationships (u : AccountUser) :
    u.export.Relationships
      = if u.Relationships.toList.isEmpty then GoSlice.nil
        else GoSlice.elems (u.Relationships.toList.map AccountUserRelationship.export) := by
  simp only [AccountUser.export, GoSlice.rangeAppend_nil]

/-- The relationships of an imported account user, with the slice header. -/
theorem importAccountUser_relationships (u : Persistence.AccountUser) :
    (importAccountUser u).Relationships
      = if u.Relationships.toList.isEmpty then GoSlice.nil
        else GoSlice.elems (u.Relationships.toList.map importAccountUserRelationship) := by
  simp only [importAccountUser, GoSlice.rangeAppend_nil]

end Relational

/-! ## Round trips of accounts and events -/

/-- C1: for every storage account `r`, `importAccount (r.export)` has the
`AccountID`, `Name`, `PublicKey`, `EncryptedPrivateKey`, `UserSalt`, `Retired`,
`AccountStyles` and `Created` of `r`, and its `Events` is the allocated slice
holding exactly the events of `r` in the same order: an allocated `r.Events`
comes back unchanged and a `nil` one comes back as the empty sequence. -/
theorem importAccount_export_roundtrip (r : Relational.Account) :
    (Relational.importAccount r.export).AccountID = r.AccountID
    ∧ (Relational.importAccount r.export).Name = r.Name
    ∧ (Relational.importAccount r.export).PublicKey = r.PublicKey
    ∧ (Relational.importAccount r.export).EncryptedPrivateKey = r.EncryptedPrivateKey
    ∧ (Relational.importAccount r.export).UserSalt = r.UserSalt
    ∧ (Relational.importAccount r.export).Retired = r.Retired
    ∧ (Relational.importAccount r.export).AccountStyles = r.AccountStyles
    ∧ (Relational.importAccount r.export).Created = r.Created
    ∧ (Relational.importAccount r.export).Events.toList = r.Events.toList
    ∧ (Relational.importAccount r.export).Events = GoSlice.elems r.Events.toList
    ∧ Relational.importAccount r.export
        = { r with Events := GoSlice.elems r.Events.toList } := by
  have hev : (Relational.importAccount r.export).Events = GoSlice.elems r.Events.toList := by
    rw [Relational.importAccount_events, Relational.export_events_toList,
      Relational.map_importEvent_export]
  refine ⟨rfl, rfl, rfl, rfl, rfl, rfl, rfl, rfl, ?_, hev, ?_⟩
  · rw [hev]; rfl
  · have h : Relational.importAccount r.export
        = { r with Events := (Relational.importAccount r.export).Events } := rfl
    rw [h, hev]

/-- C2: for every domain account `d` with at least one event, exporting
`importAccount d` gives `d` back exactly, events (with their nested secret and
nullable secret id) included. -/
theorem export_importAccount_roundtrip (d : Persistence.Account)
    (h : 0 < d.Events.len) : (Relational.importAccount d).export = d := by
  have hev : (Relational.importAccount d).export.Events = d.Events := by
    rw [Relational.export_events, Relational.importAccount_events]
    cases hd : d.Events with
    | nil => simp [hd, GoSlice.len, GoSlice.toList] at h
    | elems l =>
      cases l with
      | nil => simp [hd, GoSlice.len, GoSlice.toList] at h
      | cons x xs =>
        simp only [GoSlice.toList, Relational.map_export_importEvent]
        simp
  have hrec : (Relational.importAccount d).export
      = { d with Events := (Relational.importAccount d).export.Events } := rfl
  rw [hrec, hev]

/-- Witness of C2 on a domain account with two events, one of them anonymous. -/
theorem export_importAccount_roundtrip_witness :
    0 < Sample.domainAccount.Events.len
    ∧ (Relational.importAccount Sample.domainAccount).export = Sample.domainAccount :=
  ⟨by decide, export_importAccount_roundtrip Sample.domainAccount (by decide)⟩

/-- C3: for every storage event `e`, `importEvent (e.export)` equals `e` in
`EventID`, `Sequence`, `AccountID`, `SecretID`, `Payload` and the nested
`Secret`, whether the secret id is null or set. -/
theorem importEvent_export_roundtrip (e : Relational.Event) :
    Relational.importEvent e.export = e
    ∧ (Relational.importEvent e.export).EventID = e.EventID
    ∧ (Relational.importEvent e.export).Sequence = e.Sequence
    ∧ (Relational.importEvent e.export).AccountID = e.AccountID
    ∧ (Relational.importEvent e.export).SecretID = e.SecretID
    ∧ (Relational.importEvent e.export).Payload = e.Payload
    ∧ (Relational.importEvent e.export).Secret.SecretID = e.Secret.SecretID
    ∧ (Relational.importEvent e.export).Secret.EncryptedSecret = e.Secret.EncryptedSecret :=
  ⟨rfl, rfl, rfl, rfl, rfl, rfl, rfl, rfl⟩

/-- C4: for every domain event `d`, exporting `importEvent d` gives `d` back in
all fields; `Event.export` and `importEvent` are inverse to each other. -/
theorem export_importEvent_roundtrip (d : Persistence.Event) :
    (Relational.importEvent d).export = d
    ∧ (Relational.importEvent d).export.EventID = d.EventID
    ∧ (Relational.importEvent d).export.Sequence = d.Sequence
    ∧ (Relational.importEvent d).export.AccountID = d.AccountID
    ∧ (Relational.importEvent d).export.SecretID = d.SecretID
    ∧ (Relational.importEvent d).export.Payload = d.Payload
    ∧ (Relational.importEvent d).export.Secret = d.Secret
    ∧ Function.LeftInverse Relational.Event.export Relational.importEvent
    ∧ Function.RightInverse Relational.Event.export Relational.importEvent :=
  ⟨rfl, rfl, rfl, rfl, rfl, rfl, rfl, fun _ => rfl, fun _ => rfl⟩

/-! ## Account users and relationships -/

/-- C5: for every storage account user `u`, `importAccountUser (u.export)` has
the `AccountUserID`, `HashedEmail`, `HashedPassword`, `Salt` and `AdminLevel`
of `u` (the conversion to the admin level type and back returns the integer),
and its `Relationships` holds the relationships of `u`, element for element in
the same order. -/
theorem importAccountUser_export_roundtrip (u : Relational.AccountUser) :
    (Relational.importAccountUser u.export).AccountUserID = u.AccountUserID
    ∧ (Relational.importAccountUser u.export).HashedEmail = u.HashedEmail
    ∧ (Relational.importAccountUser u.export).HashedPassword = u.HashedPassword
    ∧ (Relational.importAccountUser u.export).Salt = u.Salt
    ∧ (Relational.importAccountUser u.export).AdminLevel = u.AdminLevel
    ∧ (Relational.importAccountUser u.export).Relationships.toList = u.Relationships.toList
    ∧ (Relational.importAccountUser u.export).Relationships.len = u.Relationships.len
    ∧ ∀ i : Nat, (Relational.importAccountUser u.export).Relationships.toList[i]?
        = u.Relationships.toList[i]? := by
  have hrel : (Relational.importAccountUser u.export).Relationships.toList
      = u.Relationships.toList := by
    show (GoSlice.rangeAppend Relational.importAccountUserRelationship GoSlice.nil
      (GoSlice.rangeAppend Relational.AccountUserRelationship.export GoSlice.nil
        u.Relationships)).toList = _
    rw [GoSlice.toList_rangeAppend, GoSlice.toList_rangeAppend]
    show [] ++ List.map _ ([] ++ List.map _ u.Relationships.toList) = _
    rw [List.nil_append, List.nil_append, Relational.map_importRelationship_export]
  refine ⟨rfl, rfl, rfl, rfl, rfl, hrel, ?_, ?_⟩
  · unfold GoSlice.len
    rw [hrel]
  · intro i
    rw [hrel]

/-- C6: `AccountUserRelationship.export` and `importAccountUserRelationship`
copy each of the three encrypted key-encryption-keys to the field of the same
recovery factor, and `RelationshipID`, `AccountUserID` and `AccountID` to the
field of the same name, for arbitrary strings. -/
theorem relationship_fields_copied
    (rid uid aid pw em ot : String) :
    (Relational.AccountUserRelationship.export
        { RelationshipID := rid, AccountUserID := uid, AccountID := aid,
          PasswordEncryptedKeyEncryptionKey := pw,
          EmailEncryptedKeyEncryptionKey := em,
          OneTimeEncryptedKeyEncryptionKey := ot }
      = { RelationshipID := rid, AccountUserID := uid, AccountID := aid,
          PasswordEncryptedKeyEncryptionKey := pw,
          EmailEncryptedKeyEncryptionKey := em,
          OneTimeEncryptedKeyEncryptionKey := ot })
    ∧ (Relational.importAccountUserRelationship
        { RelationshipID := rid, AccountUserID := uid, AccountID := aid,
          PasswordEncryptedKeyEncryptionKey := pw,
          EmailEncryptedKeyEncryptionKey := em,
          OneTimeEncryptedKeyEncryptionKey := ot }
      = { RelationshipID := rid, AccountUserID := uid, AccountID := aid,
          PasswordEncryptedKeyEncryptionKey := pw,
          EmailEncryptedKeyEncryptionKey := em,
          OneTimeEncryptedKeyEncryptionKey := ot })
    ∧ (∀ a : Relational.AccountUserRelationship,
        a.export.PasswordEncryptedKeyEncryptionKey = a.PasswordEncryptedKeyEncryptionKey
        ∧ a.export.EmailEncryptedKeyEncryptionKey = a.EmailEncryptedKeyEncryptionKey
        ∧ a.export.OneTimeEncryptedKeyEncryptionKey = a.OneTimeEncryptedKeyEncryptionKey
        ∧ a.export.RelationshipID = a.RelationshipID
        ∧ a.export.AccountUserID = a.AccountUserID
        ∧ a.export.AccountID = a.AccountID)
    ∧ (∀ a : Persistence.AccountUserRelationship,
        (Relational.importAccountUserRelationship a).PasswordEncryptedKeyEncryptionKey
          = a.PasswordEncryptedKeyEncryptionKey
        ∧ (Relational.importAccountUserRelationship a).EmailEncryptedKeyEncryptionKey
          = a.EmailEncryptedKeyEncryptionKey
        ∧ (Relational.importAccountUserRelationship a).OneTimeEncryptedKeyEncryptionKey
          = a.OneTimeEncryptedKeyEncryptionKey
        ∧ (Relational.importAccountUserRelationship a).RelationshipID = a.RelationshipID
        ∧ (Relational.importAccountUserRelationship a).AccountUserID = a.AccountUserID
        ∧ (Relational.importAccountUserRelationship a).AccountID = a.AccountID) :=
  ⟨rfl, rfl, fun _ => ⟨rfl, rfl, rfl, rfl, rfl, rfl⟩, fun _ => ⟨rfl, rfl, rfl, rfl, rfl, rfl⟩⟩

/-! ## Collections -/

/-- C7: collections translate element-wise and in order. The exported events
of a storage account have the length of its events and the `i`-th one is the
export of the `i`-th event; the imported events of a domain account have the
length of its events and the `i`-th one is `importEvent` of the `i`-th event;
the same holds for the relationships under `AccountUser.export` and
`importAccountUser`. -/
theorem collections_elementwise :
    (∀ a : Relational.Account,
      a.export.Events.len = a.Events.len
      ∧ ∀ i : Nat, a.export.Events.toList[i]?
          = (a.Events.toList[i]?).map Relational.Event.export)
    ∧ (∀ d : Persistence.Account,
      (Relational.importAccount d).Events.len = d.Events.len
      ∧ ∀ i : Nat, (Relational.importAccount d).Events.toList[i]?
          = (d.Events.toList[i]?).map Relational.importEvent)
    ∧ (∀ u : Relational.AccountUser,
      u.export.Relationships.len = u.Relationships.len
      ∧ ∀ i : Nat, u.export.Relationships.toList[i]?
          = (u.Relationships.toList[i]?).map Relational.AccountUserRelationship.export)
    ∧ (∀ u : Persistence.AccountUser,
      (Relational.importAccountUser u).Relationships.len = u.Relationships.len
      ∧ ∀ i : Nat, (Relational.importAccountUser u).Relationships.toList[i]?
          = (u.Relationships.toList[i]?).map Relational.importAccountUserRelationship) := by
  have key : ∀ {α β : Type} (f : α → β) (init : GoSlice β) (s : GoSlice α),
      init.toList = [] →
      (GoSlice.rangeAppend f init s).len = s.len
      ∧ ∀ i : Nat, (GoSlice.rangeAppend f init s).toList[i]? = (s.toList[i]?).map f := by
    intro α β f init s h0
    have h : (GoSlice.rangeAppend f init s).toList = s.toList.map f := by
      rw [GoSlice.toList_rangeAppend, h0, List.nil_append]
    refine ⟨?_, ?_⟩
    · unfold GoSlice.len
      rw [h, List.length_map]
    · intro i
      rw [h, List.getElem?_map]
  exact ⟨fun a => key Relational.Event.export GoSlice.nil a.Events rfl,
    fun d => key Relational.importEvent (GoSlice.elems []) d.Events rfl,
    fun u => key Relational.AccountUserRelationship.export GoSlice.nil u.Relationships rfl,
    fun u => key Relational.importAccountUserRelationship GoSlice.nil u.Relationships rfl⟩

/-- C8: for every domain account `d`, `importAccount d` has an allocated
`Events` slice (never `nil`), holding the imported events of `d`; when `d.Events`
is `nil` or empty it is the allocated empty slice. -/
theorem importAccount_events_present (d : Persistence.Account) :
    (Relational.importAccount d).Events.isNil = false
    ∧ (Relational.importAccount d).Events
        = GoSlice.elems (d.Events.toList.map Relational.importEvent)
    ∧ (Relational.importAccount { d with Events := GoSlice.nil }).Events = GoSlice.elems []
    ∧ (Relational.importAccount { d with Events := GoSlice.elems [] }).Events
        = GoSlice.elems [] := by
  refine ⟨?_, Relational.importAccount_events d, rfl, rfl⟩
  rw [Relational.importAccount_events]
  rfl

/-- C9: `importAccountUser` does not normalise absent relationships. For a
domain account user whose `Relationships` is `nil` (and also for an allocated
empty one) the returned record's `Relationships` is the `nil` slice, not an
allocated empty slice, whereas `importAccount` on the same kind of input
returns an allocated empty `Events`. -/
theorem importAccountUser_nil_relationships
    (uid he hp salt : String) (lvl : Persistence.AccountUserAdminLevel) :
    (Relational.importAccountUser
        { AccountUserID := uid, HashedEmail := he, HashedPassword := hp, Salt := salt,
          AdminLevel := lvl, Relationships := GoSlice.nil }).Relationships = GoSlice.nil
    ∧ (Relational.importAccountUser
        { AccountUserID := uid, HashedEmail := he, HashedPassword := hp, Salt := salt,
          AdminLevel := lvl, Relationships := GoSlice.elems [] }).Relationships = GoSlice.nil
    ∧ (Relational.importAccountUser Sample.domainUserNoRelationships).Relationships.isNil
        = true :=
  ⟨rfl, rfl, rfl⟩

/-- C10, as stated, fails: the export of a storage account without events has a
`nil` `Events`, and the export of a storage account user without relationships
has a `nil` `Relationships`. -/
theorem export_collections_present_counterexample :
    ¬ (Sample.accountNoEvents.export.Events.isNil = false)
    ∧ ¬ (Sample.userNoRelationships.export.Relationships.isNil = false)
    ∧ Sample.accountNoEvents.export.Events = GoSlice.nil
    ∧ Sample.userNoRelationships.export.Relationships = GoSlice.nil := by
  refine ⟨?_, ?_, rfl, rfl⟩
  · intro h; exact Bool.noConfusion h
  · intro h; exact Bool.noConfusion h

/-- C10, amended: the collection of an exported record is an allocated slice
exactly when the storage record has at least one element, and it then holds
the exported elements in order; for a storage account with `nil` or empty
`Events` the exported `Events` is `nil`, and for a storage account user with
`nil` or empty `Relationships` the exported `Relationships` is `nil`. -/
theorem export_collections_present_iff_nonempty :
    (∀ a : Relational.Account,
      a.export.Events.isNil = a.Events.toList.isEmpty
      ∧ a.export.Events.toList = a.Events.toList.map Relational.Event.export
      ∧ a.export.Events
          = if a.Events.toList.isEmpty then GoSlice.nil
            else GoSlice.elems (a.Events.toList.map Relational.Event.export))
    ∧ (∀ u : Relational.AccountUser,
      u.export.Relationships.isNil = u.Relationships.toList.isEmpty
      ∧ u.export.Relationships.toList
          = u.Relationships.toList.map Relational.AccountUserRelationship.export
      ∧ u.export.Relationships
          = if u.Relationships.toList.isEmpty then GoSlice.nil
            else GoSlice.elems
              (u.Relationships.toList.map Relational.AccountUserRelationship.export)) := by
  have key : ∀ {α β : Type} (f : α → β) (s : GoSlice α),
      (GoSlice.rangeAppend f GoSlice.nil s).isNil = s.toList.isEmpty
      ∧ (GoSlice.rangeAppend f GoSlice.nil s).toList = s.toList.map f
      ∧ GoSlice.rangeAppend f GoSlice.nil s
          = if s.toList.isEmpty then GoSlice.nil else GoSlice.elems (s.toList.map f) := by
    intro α β f s
    refine ⟨?_, ?_, GoSlice.rangeAppend_nil f s⟩
    · rw [GoSlice.rangeAppend_nil]
      cases s.toList <;> rfl
    · rw [GoSlice.toList_rangeAppend]
      rfl
  exact ⟨fun a => key Relational.Event.export a.Events,
    fun u => key Relational.AccountUserRelationship.export u.Relationships⟩

/-! ## Secret references, tombstones and totality -/

/-- C11, as stated, fails: an event whose secret id is set while its nested
secret is missing, and one whose nested secret carries another id, are not
rejected; `Event.export` and `importEvent` return the translated record. -/
theorem missing_secret_rejected_counterexample :
    Sample.eventMissingSecret.secretMissing = true
    ∧ Sample.eventOtherSecret.secretMissing = true
    ∧ callThroughPointer Relational.Event.export (some Sample.eventMissingSecret)
        = GoResult.returned
            { EventID := "01G", Sequence := "0003", AccountID := "A1",
              SecretID := some "h(U2,s1)", Payload := "payload-3",
              Secret := { SecretID := "", EncryptedSecret := "" } }
    ∧ callThroughPointer Relational.importEvent (some Sample.eventMissingSecret.export)
        = GoResult.returned Sample.eventMissingSecret
    ∧ callThroughPointer Relational.Event.export (some Sample.eventOtherSecret)
        = GoResult.returned
            { EventID := "01H", Sequence := "0004", AccountID := "A1",
              SecretID := some "h(U2,s1)", Payload := "payload-4",
              Secret := { SecretID := "h(U1,s1)", EncryptedSecret := "enc-secret" } }
    ∧ callThroughPointer Relational.importEvent (some Sample.eventOtherSecret.export)
        = GoResult.returned Sample.eventOtherSecret
    ∧ ¬ ((callThroughPointer Relational.Event.export
          (some Sample.eventMissingSecret)).isReturned = false)
    ∧ ¬ ((callThroughPointer Relational.importEvent
          (some Sample.eventMissingSecret.export)).isReturned = false) := by
  refine ⟨by decide, by decide, rfl, rfl, rfl, rfl, ?_, ?_⟩
  · intro h; exact Bool.noConfusion h
  · intro h; exact Bool.noConfusion h

/-- C11, amended: the translation of events does not validate the secret
reference. For every event, also one whose secret id is set while its nested
secret is missing or carries another id, `Event.export` and `importEvent`
return the translated record, with the secret id and the nested secret copied
as they are; the translated event still has the missing secret. -/
theorem missing_secret_passed_through :
    (∀ e : Relational.Event,
      callThroughPointer Relational.Event.export (some e)
        = GoResult.returned
            { EventID := e.EventID, Sequence := e.Sequence, AccountID := e.AccountID,
              SecretID := e.SecretID, Payload := e.Payload,
              Secret := { SecretID := e.Secret.SecretID,
                          EncryptedSecret := e.Secret.EncryptedSecret } })
    ∧ (∀ d : Persistence.Event,
      callThroughPointer Relational.importEvent (some d)
        = GoResult.returned
            { EventID := d.EventID, Sequence := d.Sequence, AccountID := d.AccountID,
              SecretID := d.SecretID, Payload := d.Payload,
              Secret := { SecretID := d.Secret.SecretID,
                          EncryptedSecret := d.Secret.EncryptedSecret } })
    ∧ (∀ (eid seq aid pl id : String),
      Relational.Event.export
          { EventID := eid, Sequence := seq, AccountID := aid, SecretID := some id,
            Payload := pl, Secret := { SecretID := "", EncryptedSecret := "" } }
        = { EventID := eid, Sequence := seq, AccountID := aid, SecretID := some id,
            Payload := pl, Secret := { SecretID := "", EncryptedSecret := "" } })
    ∧ (∀ (eid seq aid pl id : String),
      Relational.importEvent
          { EventID := eid, Sequence := seq, AccountID := aid, SecretID := some id,
            Payload := pl, Secret := { SecretID := "", EncryptedSecret := "" } }
        = { EventID := eid, Sequence := seq, AccountID := aid, SecretID := some id,
            Payload := pl, Secret := { SecretID := "", EncryptedSecret := "" } })
    ∧ (∀ e : Relational.Event,
      (Relational.importEvent e.export).secretMissing = e.secretMissing) :=
  ⟨fun _ => rfl, fun _ => rfl, fun _ _ _ _ _ => rfl, fun _ _ _ _ _ => rfl, fun _ => rfl⟩

/-- C12: the nullable secret id keeps its presence and its value through
`Event.export`, `importEvent`, `Tombstone.export` and `importTombstone`; an
absent secret id stays absent whatever the nested secret holds (it is neither
turned into the empty string nor filled in from the nested secret). -/
theorem secretID_presence_preserved :
    (∀ e : Relational.Event,
      e.export.SecretID = e.SecretID ∧ e.export.SecretID.isNone = e.SecretID.isNone)
    ∧ (∀ d : Persistence.Event,
      (Relational.importEvent d).SecretID = d.SecretID
      ∧ (Relational.importEvent d).SecretID.isNone = d.SecretID.isNone)
    ∧ (∀ t : Relational.Tombstone,
      t.export.SecretID = t.SecretID ∧ t.export.SecretID.isNone = t.SecretID.isNone)
    ∧ (∀ d : Persistence.Tombstone,
      (Relational.importTombstone d).SecretID = d.SecretID
      ∧ (Relational.importTombstone d).SecretID.isNone = d.SecretID.isNone)
    ∧ (∀ (eid seq aid pl : String) (s : Relational.Secret),
      (Relational.Event.export
        { EventID := eid, Sequence := seq, AccountID := aid, SecretID := none,
          Payload := pl, Secret := s }).SecretID = none)
    ∧ (∀ (eid seq aid pl : String) (s : Persistence.Secret),
      (Relational.importEvent
        { EventID := eid, Sequence := seq, AccountID := aid, SecretID := none,
          Payload := pl, Secret := s }).SecretID = none)
    ∧ (∀ (eid seq aid : String),
      (Relational.Tombstone.export
        { EventID := eid, AccountID := aid, SecretID := none, Sequence := seq }).SecretID
        = none)
    ∧ (∀ (eid seq aid : String),
      (Relational.importTombstone
        { EventID := eid, AccountID := aid, SecretID := none, Sequence := seq }).SecretID
        = none) :=
  ⟨fun _ => ⟨rfl, rfl⟩, fun _ => ⟨rfl, rfl⟩, fun _ => ⟨rfl, rfl⟩, fun _ => ⟨rfl, rfl⟩,
    fun _ _ _ _ _ => rfl, fun _ _ _ _ _ => rfl, fun _ _ _ => rfl, fun _ _ _ => rfl⟩

/-- C13: for every storage tombstone `t`, `importTombstone (t.export)` equals
`t` in `EventID`, `AccountID`, `SecretID` and `Sequence`, and for every domain
tombstone `d`, exporting `importTombstone d` equals `d`. -/
theorem tombstone_roundtrip :
    (∀ t : Relational.Tombstone,
      Relational.importTombstone t.export = t
      ∧ (Relational.importTombstone t.export).EventID = t.EventID
      ∧ (Relational.importTombstone t.export).AccountID = t.AccountID
      ∧ (Relational.importTombstone t.export).SecretID = t.SecretID
      ∧ (Relational.importTombstone t.export).Sequence = t.Sequence)
    ∧ (∀ d : Persistence.Tombstone,
      (Relational.importTombstone d).export = d
      ∧ (Relational.importTombstone d).export.EventID = d.EventID
      ∧ (Relational.importTombstone d).export.AccountID = d.AccountID
      ∧ (Relational.importTombstone d).export.SecretID = d.SecretID
      ∧ (Relational.importTombstone d).export.Sequence = d.Sequence) :=
  ⟨fun _ => ⟨rfl, rfl, rfl, rfl, rfl⟩, fun _ => ⟨rfl, rfl, rfl, rfl, rfl⟩⟩

/-- C14: each of the twelve translation functions returns a value on every
input record: no call on a record panics or yields an error. The collection
loops run to the end for collections of any length (the result has the length
of the input), and an event with a null secret id is translated like any
other. -/
theorem translation_total :
    (∀ r : Relational.Event,
      callThroughPointer Relational.Event.export (some r) = GoResult.returned r.export)
    ∧ (∀ r : Persistence.Event,
      callThroughPointer Relational.importEvent (some r)
        = GoResult.returned (Relational.importEvent r))
    ∧ (∀ r : Relational.Tombstone,
      callThroughPointer Relational.Tombstone.export (some r) = GoResult.returned r.export)
    ∧ (∀ r : Persistence.Tombstone,
      callThroughPointer Relational.importTombstone (some r)
        = GoResult.returned (Relational.importTombstone r))
    ∧ (∀ r : Relational.Secret,
      callThroughPointer Relational.Secret.export (some r) = GoResult.returned r.export)
    ∧ (∀ r : Persistence.Secret,
      callThroughPointer Relational.importSecret (some r)
        = GoResult.returned (Relational.importSecret r))
    ∧ (∀ r : Relational.AccountUser,
      callThroughPointer Relational.AccountUser.export (some r) = GoResult.returned r.export
      ∧ r.export.Relationships.len = r.Relationships.len)
    ∧ (∀ r : Persistence.AccountUser,
      callThroughPointer Relational.importAccountUser (some r)
        = GoResult.returned (Relational.importAccountUser r)
      ∧ (Relational.importAccountUser r).Relationships.len = r.Relationships.len)
    ∧ (∀ r : Relational.AccountUserRelationship,
      callThroughPointer Relational.AccountUserRelationship.export (some r)
        = GoResult.returned r.export)
    ∧ (∀ r : Persistence.AccountUserRelationship,
      callThroughPointer Relational.importAccountUserRelationship (some r)
        = GoResult.returned (Relational.importAccountUserRelationship r))
    ∧ (∀ r : Relational.Account,
      callThroughPointer Relational.Account.export (some r) = GoResult.returned r.export
      ∧ r.export.Events.len = r.Events.len)
    ∧ (∀ r : Persistence.Account,
      callThroughPointer Relational.importAccount (some r)
        = GoResult.returned (Relational.importAccount r)
      ∧ (Relational.importAccount r).Events.len = r.Events.len)
    ∧ (∀ (eid seq aid pl : String) (s : Relational.Secret),
      (callThroughPointer Relational.Event.export
        (some { EventID := eid, Sequence := seq, AccountID := aid, SecretID := none,
                Payload := pl, Secret := s })).isReturned = true)
    ∧ (∀ (eid seq aid pl : String) (s : Persistence.Secret),
      (callThroughPointer Relational.importEvent
        (some { EventID := eid, Sequence := seq, AccountID := aid, SecretID := none,
                Payload := pl, Secret := s })).isReturned = true) := by
  have key : ∀ {α β : Type} (f : α → β) (init : GoSlice β) (s : GoSlice α),
      init.toList = [] → (GoSlice.rangeAppend f init s).len = s.len := by
    intro α β f init s h0
    unfold GoSlice.len
    rw [GoSlice.toList_rangeAppend, h0, List.nil_append, List.length_map]
  exact ⟨fun _ => rfl, fun _ => rfl, fun _ => rfl, fun _ => rfl, fun _ => rfl, fun _ => rfl,
    fun r => ⟨rfl, key _ GoSlice.nil r.Relationships rfl⟩,
    fun r => ⟨rfl, key _ GoSlice.nil r.Relationships rfl⟩,
    fun _ => rfl, fun _ => rfl,
    fun r => ⟨rfl, key _ GoSlice.nil r.Events rfl⟩,
    fun r => ⟨rfl, key _ (GoSlice.elems []) r.Events rfl⟩,
    fun _ _ _ _ _ => rfl, fun _ _ _ _ _ => rfl⟩

/-- C15: the tombstone that replaces an event `e` has the `EventID`,
`AccountID`, `SecretID` and `Sequence` of `e`; only `Payload` and the nested
`Secret` are dropped, so `e` is the tombstone's four fields together with its
own payload and secret. -/
theorem tombstone_preserves_event_fields (e : Relational.Event) :
    (Relational.replaceWithTombstone e).EventID = e.EventID
    ∧ (Relational.replaceWithTombstone e).AccountID = e.AccountID
    ∧ (Relational.replaceWithTombstone e).SecretID = e.SecretID
    ∧ (Relational.replaceWithTombstone e).Sequence = e.Sequence
    ∧ e = { EventID := (Relational.replaceWithTombstone e).EventID,
            Sequence := (Relational.replaceWithTombstone e).Sequence,
            AccountID := (Relational.replaceWithTombstone e).AccountID,
            SecretID := (Relational.replaceWithTombstone e).SecretID,
            Payload := e.Payload, Secret := e.Secret }
    ∧ (Relational.replaceWithTombstone e).export
        = { EventID := e.export.EventID, AccountID := e.export.AccountID,
            SecretID := e.export.SecretID, Sequence := e.export.Sequence } :=
  ⟨rfl, rfl, rfl, rfl, rfl, rfl⟩

/-! ## Key fields, fixed points and the nil/empty asymmetry -/

/-- C16: `Account.export` and `importAccount` copy every scalar field to the
field of the same name: `PublicKey` to `PublicKey`, `EncryptedPrivateKey` to
`EncryptedPrivateKey`, and likewise `AccountID`, `Name`, `UserSalt`, `Retired`,
`AccountStyles` and `Created`, whatever the events are. -/
theorem account_scalars_copied
    (aid name pk epk salt styles : String) (retired : Bool) (created : Time) :
    (∀ ev : GoSlice Relational.Event,
      Relational.Account.export
          { AccountID := aid, Name := name, PublicKey := pk, EncryptedPrivateKey := epk,
            UserSalt := salt, Retired := retired, AccountStyles := styles,
            Created := created, Events := ev }
        = { AccountID := aid, Name := name, PublicKey := pk, EncryptedPrivateKey := epk,
            UserSalt := salt, Retired := retired, AccountStyles := styles,
            Created := created,
            Events := GoSlice.rangeAppend Relational.Event.export GoSlice.nil ev })
    ∧ (∀ ev : GoSlice Persistence.Event,
      Relational.importAccount
          { AccountID := aid, Name := name, PublicKey := pk, EncryptedPrivateKey := epk,
            UserSalt := salt, Retired := retired, AccountStyles := styles,
            Created := created, Events := ev }
        = { AccountID := aid, Name := name, PublicKey := pk, EncryptedPrivateKey := epk,
            UserSalt := salt, Retired := retired, AccountStyles := styles,
            Created := created,
            Events := GoSlice.rangeAppend Relational.importEvent (GoSlice.elems []) ev })
    ∧ (∀ a : Relational.Account,
      a.export.PublicKey = a.PublicKey
      ∧ a.export.EncryptedPrivateKey = a.EncryptedPrivateKey
      ∧ a.export.AccountID = a.AccountID
      ∧ a.export.Name = a.Name
      ∧ a.export.UserSalt = a.UserSalt
      ∧ a.export.Retired = a.Retired
      ∧ a.export.AccountStyles = a.AccountStyles
      ∧ a.export.Created = a.Created)
    ∧ (∀ d : Persistence.Account,
      (Relational.importAccount d).PublicKey = d.PublicKey
      ∧ (Relational.importAccount d).EncryptedPrivateKey = d.EncryptedPrivateKey
      ∧ (Relational.importAccount d).AccountID = d.AccountID
      ∧ (Relational.importAccount d).Name = d.Name
      ∧ (Relational.importAccount d).UserSalt = d.UserSalt
      ∧ (Relational.importAccount d).Retired = d.Retired
      ∧ (Relational.importAccount d).AccountStyles = d.AccountStyles
      ∧ (Relational.importAccount d).Created = d.Created) :=
  ⟨fun _ => rfl, fun _ => rfl, fun _ => ⟨rfl, rfl, rfl, rfl, rfl, rfl, rfl, rfl⟩,
    fun _ => ⟨rfl, rfl, rfl, rfl, rfl, rfl, rfl, rfl⟩⟩

/-- C17: one round trip is a fixed point. For every storage account `r`, also
with `nil` or empty events, exporting `importAccount (r.export)` gives
`r.export` exactly, and importing that export again gives
`importAccount (r.export)`. -/
theorem account_roundtrip_fixed_point (r : Relational.Account) :
    (Relational.importAccount r.export).export = r.export
    ∧ Relational.importAccount (Relational.importAccount r.export).export
        = Relational.importAccount r.export := by
  have himp : (Relational.importAccount r.export).Events = GoSlice.elems r.Events.toList := by
    rw [Relational.importAccount_events, Relational.export_events_toList,
      Relational.map_importEvent_export]
  have hev : (Relational.importAccount r.export).export.Events = r.export.Events := by
    rw [Relational.export_events, Relational.export_events r, himp]
    rfl
  have hrec : (Relational.importAccount r.export).export
      = { r.export with Events := (Relational.importAccount r.export).export.Events } := rfl
  have h1 : (Relational.importAccount r.export).export = r.export := by
    rw [hrec, hev]
  exact ⟨h1, congrArg Relational.importAccount h1⟩

/-- C18: with an allocated empty collection the round trip is not exact. For a
storage account user with empty, non-nil relationships,
`importAccountUser (u.export)` has `nil` relationships, and for a domain
account with empty, non-nil events, the export of `importAccount d` has `nil`
events; every other field is reproduced. -/
theorem empty_collection_roundtrip_gives_nil :
    (∀ u : Relational.AccountUser,
      Relational.importAccountUser
          (Relational.AccountUser.export { u with Relationships := GoSlice.elems [] })
        = { u with Relationships := GoSlice.nil })
    ∧ (∀ d : Persistence.Account,
      (Relational.importAccount { d with Events := GoSlice.elems [] }).export
        = { d with Events := GoSlice.nil })
    ∧ Sample.userEmptyRelationships.Relationships.isNil = false
    ∧ (Relational.importAccountUser
        Sample.userEmptyRelationships.export).Relationships.isNil = true
    ∧ ¬ (Relational.importAccountUser Sample.userEmptyRelationships.export
          = Sample.userEmptyRelationships)
    ∧ Sample.domainAccountEmptyEvents.Events.isNil = false
    ∧ (Relational.importAccount Sample.domainAccountEmptyEvents).export.Events.isNil = true
    ∧ ¬ ((Relational.importAccount Sample.domainAccountEmptyEvents).export
          = Sample.domainAccountEmptyEvents) := by
  refine ⟨fun _ => rfl, fun _ => rfl, rfl, rfl, ?_, rfl, rfl, ?_⟩
  · intro h
    have h2 := congrArg (fun v => v.Relationships.isNil) h
    exact Bool.noConfusion h2
  · intro h
    have h2 := congrArg (fun v => v.Events.isNil) h
    exact Bool.noConfusion h2

/-- C19: event translation treats the secret id and the nested secret
independently. For every storage event the exported secret id is the event's
secret id and the exported secret is the export of the nested secret, for any
combination of the two (null secret id, or a secret id other than the nested
secret's); the same holds for `importEvent`. -/
theorem secretID_and_secret_independent :
    (∀ e : Relational.Event,
      e.export.SecretID = e.SecretID ∧ e.export.Secret = e.Secret.export)
    ∧ (∀ d : Persistence.Event,
      (Relational.importEvent d).SecretID = d.SecretID
      ∧ (Relational.importEvent d).Secret = Relational.importSecret d.Secret)
    ∧ (∀ (e : Relational.Event) (sid : Option String) (s : Relational.Secret),
      (Relational.Event.export { e with SecretID := sid, Secret := s }).SecretID = sid
      ∧ (Relational.Event.export { e with SecretID := sid, Secret := s }).Secret
          = { SecretID := s.SecretID, EncryptedSecret := s.EncryptedSecret })
    ∧ (∀ (d : Persistence.Event) (sid : Option String) (s : Persistence.Secret),
      (Relational.importEvent { d with SecretID := sid, Secret := s }).SecretID = sid
      ∧ (Relational.importEvent { d with SecretID := sid, Secret := s }).Secret
          = { SecretID := s.SecretID, EncryptedSecret := s.EncryptedSecret })
    ∧ (∀ (e : Relational.Event) (s : Relational.Secret),
      (Relational.Event.export { e with SecretID := none, Secret := s }).Secret = s.export)
    ∧ (∀ (d : Persistence.Event) (s : Persistence.Secret),
      (Relational.importEvent { d with SecretID := none, Secret := s }).Secret
        = Relational.importSecret s) :=
  ⟨fun _ => ⟨rfl, rfl⟩, fun _ => ⟨rfl, rfl⟩, fun _ _ _ => ⟨rfl, rfl⟩,
    fun _ _ _ => ⟨rfl, rfl⟩, fun _ _ => rfl, fun _ _ => rfl⟩
